import Mathlib

/-!
Verification development for the SEO crawler engine (src/seo_analyzer.py and
src/playwright_handler.py), as a shallow embedding in Lean 4.

URLs are modelled structurally: a `Url` records the components produced by
Python's `urllib.parse.urlparse` (scheme, netloc, path, query, fragment)
plus two whitespace flags for the raw string: `wsl` for leading and `wst`
for trailing whitespace.  CPython's `urlsplit` strips LEADING whitespace
(and control characters) before splitting but deliberately preserves
trailing space, which stays inside the last component and survives
`geturl`; so any rebuilt URL has `wsl = false` while `wst` is preserved.
Equality of `Url` values models equality of the corresponding URL
strings.
-/

set_option maxHeartbeats 1000000

namespace Scraper

/-- `pat` begins the character list `s`. -/
def listLeads : List Char → List Char → Bool
  | [], _ => true
  | _ :: _, [] => false
  | p :: ps, c :: cs => p = c && listLeads ps cs

/-- Python `s.startswith(pat)` (kernel-computable form). -/
def strLeads (s pat : String) : Bool := listLeads pat.data s.data

/-- Python `s.endswith(pat)` (kernel-computable form). -/
def strTrails (s pat : String) : Bool :=
  listLeads pat.data.reverse s.data.reverse

/-- `pat` occurs inside the character list. -/
def listHasSub (pat : List Char) : List Char → Bool
  | [] => listLeads pat []
  | c :: cs => listLeads pat (c :: cs) || listHasSub pat cs

/-- Python `pat in s` (kernel-computable form). -/
def strHasSub (s pat : String) : Bool := listHasSub pat.data s.data

/-- Removal of every non-overlapping occurrence of `pat`, left to right;
`fuel` is instantiated with the subject length. -/
def removeOccAux (pat : List Char) : Nat → List Char → List Char
  | _, [] => []
  | 0, s => s
  | fuel + 1, c :: rest =>
      if listLeads pat (c :: rest) then
        removeOccAux pat fuel (List.drop (pat.length - 1) rest)
      else c :: removeOccAux pat fuel rest

/-- Python `s.replace(pat, '')` (kernel-computable form). -/
def strRemoveAll (s pat : String) : String :=
  if pat.data = [] then s else ⟨removeOccAux pat.data s.data.length s.data⟩

/-- Python `s.lower()` (kernel-computable form; ASCII suffices here). -/
def strLower (s : String) : String := ⟨s.data.map Char.toLower⟩

structure Url where
  wsl : Bool
  wst : Bool
  scheme : String
  netloc : String
  path : String
  query : String
  fragment : String
deriving DecidableEq, Repr

/-- Stripping BOTH the leading and the trailing whitespace of a raw URL
string (what the spec claims normalization does). -/
def trimUrl (u : Url) : Url := { u with wsl := false, wst := false }

/-- Stripping only the LEADING whitespace of a raw URL string (what
`urlsplit` actually does). -/
def lstripUrl (u : Url) : Url := { u with wsl := false }

/-- `SEOAnalyzer._normalize_url` (seo_analyzer.py:190-198): parse the URL,
drop the fragment, and rebuild with `geturl`.  `urlsplit` lstrips the raw
string, so leading whitespace is gone from the result; trailing
whitespace stays inside the path component and survives `geturl`
(CPython: "Only lstrip url as some applications rely on preserving
trailing space"). -/
def normalizeUrl (u : Url) : Url := { u with wsl := false, fragment := "" }

/-- Rendering of a `Url` back to the string Python manipulates
(`geturl`-style, with the optional whitespace padding). -/
def renderUrl (u : Url) : String :=
  (if u.wsl then " " else "")
    ++ u.scheme ++ "://" ++ u.netloc ++ u.path
    ++ (if u.query = "" then "" else "?" ++ u.query)
    ++ (if u.fragment = "" then "" else "#" ++ u.fragment)
    ++ (if u.wst then " " else "")

/-- `url.lower()` as used throughout `is_valid_url`. -/
def urlLower (u : Url) : String := strLower (renderUrl u)

/-- `netloc.replace('www.', '')` (Python `str.replace` removes every
occurrence). -/
def stripWww (s : String) : String := strRemoveAll s "www."

/-- `urlparse(url).netloc.replace('www.', '')` as computed at
seo_analyzer.py:304, 380 and 682 (note: no lowercasing there). -/
def domainOf (u : Url) : String := stripWww u.netloc

/-- `SEOAnalyzer.is_same_domain` (seo_analyzer.py:179-188): lowercase both
URLs, take netlocs, drop `www.`, compare. -/
def is_same_domain (u1 u2 : Url) : Bool :=
  stripWww (strLower u1.netloc) = stripWww (strLower u2.netloc)

/-- `s` contains `pat` as a substring (`pat in s` in Python). -/
def containsSub (s pat : String) : Bool := strHasSub s pat

/-- `urllib.parse.urljoin(base_url, url)` for a URL without a netloc, as
called at seo_analyzer.py:295.  Path resolution against the base is
abstracted: the joined URL takes scheme/netloc from the base and
path/query/fragment from the reference; `urljoin` lstrips its inputs, so
leading whitespace is gone while the reference's trailing whitespace
survives in the joined path. -/
def urljoinBase (base u : Url) : Url :=
  { base with wsl := false, wst := u.wst,
              path := u.path, query := u.query, fragment := u.fragment }

/-- A status-cache / link-check code: either an HTTP status code (int) or a
special string code such as `'ERROR'`, `'TIMEOUT'`, `'SSL_ERROR'`. -/
inductive LinkCode where
  | num (n : Int)
  | str (s : String)
deriving DecidableEq, Repr

/-- Per-domain circuit-breaker record (seo_analyzer.py:162):
`{'fails': int, 'last_fail_ts': float, 'open_until': float}`.
Timestamps are modelled as naturals. -/
structure DomainInfo where
  fails : Nat
  last_fail_ts : Nat
  open_until : Nat
deriving DecidableEq, Repr

/-- The `'Status Code'` field of a page record: an HTTP status, Python
`None`, or the string stubs `'Error'` / `'No Content'`. -/
inductive StatusVal where
  | num (n : Int)
  | noneVal
  | errorVal
  | noContent
deriving DecidableEq, Repr

/-- A page record as appended to `self.results`; fields beyond the ones
claims talk about (the `'URL'` key and the status) are not modelled. -/
structure PageRecord where
  url : Url
  status : StatusVal
deriving DecidableEq, Repr

/-- The snapshot captured by `stop_crawling` (seo_analyzer.py:1108-1117). -/
structure Snapshot where
  visited : List Url
  to_visit : List Url
  results : List PageRecord
  specific_urls : Option (List Url)
deriving DecidableEq, Repr

/-- Association-list lookup (`dict.get`). -/
def alookup {α β : Type} [DecidableEq α] (k : α) : List (α × β) → Option β
  | [] => none
  | (a, b) :: rest => if a = k then some b else alookup k rest

/-- Association-list store (`dict[k] = v`). -/
def astore {α β : Type} [DecidableEq α] (k : α) (v : β) (l : List (α × β)) :
    List (α × β) :=
  (k, v) :: l.filter (fun p => p.1 ≠ k)

/-- Association-list removal (`dict.pop(k, None)`). -/
def aremove {α β : Type} [DecidableEq α] (k : α) (l : List (α × β)) :
    List (α × β) :=
  l.filter (fun p => p.1 ≠ k)

/-- `self.circuit_failure_threshold = 3` (seo_analyzer.py:164). -/
def circuit_failure_threshold : Nat := 3

/-- `self.circuit_cooldown = 60` (seo_analyzer.py:165). -/
def circuit_cooldown : Nat := 60

/-- The mutable state of one `SEOAnalyzer` instance, restricted to the
fields the claims are about. -/
structure AnalyzerState where
  base_url : Url
  specific_urls : Option (List Url)
  max_pages : Int
  visited : List Url
  to_visit : List Url
  url_status_cache : List (Url × LinkCode)
  domain_failures : List (String × DomainInfo)
  results : List PageRecord
  broken_links : List (Url × LinkCode)
  redirected_urls : List (Url × LinkCode)
  is_running : Bool
  is_paused : Bool
  current_state : Option Snapshot
deriving DecidableEq, Repr

/-- `SEOAnalyzer.__init__` (seo_analyzer.py:111-177): fresh collections, the
frontier seeded with `specific_urls` verbatim or with `[base_url]`. -/
def initState (base : Url) (specific : Option (List Url)) (maxPages : Int) :
    AnalyzerState :=
  { base_url := base
    specific_urls := match specific with
      | some l => if l = [] then none else some l
      | none => none
    max_pages := maxPages
    visited := []
    to_visit := match specific with | some l => if l = [] then [base] else l | none => [base]
    url_status_cache := []
    domain_failures := []
    results := []
    broken_links := []
    redirected_urls := []
    is_running := true
    is_paused := false
    current_state := none }

/-- `SEOAnalyzer._is_circuit_open` (seo_analyzer.py:445-456): open iff the
domain has a record whose `open_until` is truthy (nonzero) and in the
future. -/
def is_circuit_open (s : AnalyzerState) (domain : String) (now : Nat) : Bool :=
  match alookup domain s.domain_failures with
  | none => false
  | some info => info.open_until ≠ 0 && now < info.open_until

/-- `SEOAnalyzer._record_failure` (seo_analyzer.py:458-469): bump the
domain's failure count, stamp the time, and open the circuit for
`circuit_cooldown` seconds once the count reaches the threshold. -/
def record_failure (s : AnalyzerState) (domain : String) (now : Nat) :
    AnalyzerState :=
  let info := (alookup domain s.domain_failures).getD ⟨0, 0, 0⟩
  let fails := info.fails + 1
  let openU := if circuit_failure_threshold ≤ fails then now + circuit_cooldown
               else info.open_until
  { s with domain_failures :=
      astore domain ⟨fails, now, openU⟩ s.domain_failures }

/-- `SEOAnalyzer._record_success` (seo_analyzer.py:471-477): drop the
domain's failure record entirely. -/
def record_success (s : AnalyzerState) (domain : String) : AnalyzerState :=
  { s with domain_failures := aremove domain s.domain_failures }

/-- The blocked protocol markers of `is_valid_url` (seo_analyzer.py:210). -/
def invalid_protocols : List String := ["mailto:", "tel:", "javascript:", "data:"]

/-- The excluded extension list of `is_valid_url` (seo_analyzer.py:215-226). -/
def excluded_extensions : List String :=
  [".pdf", ".jpg", ".jpeg", ".png", ".gif", ".ico", ".svg", ".webp",
   ".css", ".js", ".json", ".xml", ".txt",
   ".woff", ".woff2", ".ttf", ".eot", ".otf",
   ".mp3", ".mp4", ".wav", ".ogg", ".webm",
   ".map"]

/-- The static-resource path patterns of `is_valid_url`
(seo_analyzer.py:246-253). -/
def static_patterns : List String :=
  ["/_next/static/", "/static/", "/assets/", "/dist/", "/build/", "/themes/"]

/-- `SEOAnalyzer.is_valid_url` (seo_analyzer.py:200-282), as the boolean
admission decision (the image-record side effect for image extensions is
not modelled).  Order: protocol, extension, static pattern, then domain /
whitelist; a URL without a netloc is admitted as-is. -/
def is_valid_url (s : AnalyzerState) (u : Url) : Bool :=
  if invalid_protocols.any (fun p => strLeads (urlLower u) p) then false
  else if excluded_extensions.any (fun e => strTrails (urlLower u) e) then false
  else if static_patterns.any (fun p => containsSub (urlLower u) p) then false
  else if u.netloc = "" then true
  else
    match s.specific_urls with
    | some l => decide (u ∈ l)
    | none => is_same_domain u s.base_url

/-- The relative-URL resolution at the top of `add_url_to_queue`
(seo_analyzer.py:293-295). -/
def resolveRel (s : AnalyzerState) (u : Url) : Url :=
  if u.netloc = "" then urljoinBase s.base_url u else u

/-- `SEOAnalyzer.add_url_to_queue` (seo_analyzer.py:284-340): resolve and
normalize, reject seen/queued URLs, reject when the domain circuit is
open, consult the URL-status cache (an int ≥ 400 rejects, an int < 400
enqueues directly, a string code falls through), otherwise admit via
`is_valid_url` and append.  Returns the updated state and the boolean the
method returns. -/
def add_url_to_queue (s : AnalyzerState) (u : Url) (now : Nat) :
    AnalyzerState × Bool :=
  let u2 := normalizeUrl (resolveRel s u)
  if u2 ∈ s.visited ∨ u2 ∈ s.to_visit then (s, false)
  else if is_circuit_open s (domainOf u2) now then (s, false)
  else
    match alookup u2 s.url_status_cache with
    | some (LinkCode.num c) =>
        if 400 ≤ c then (s, false)
        else ({ s with to_visit := s.to_visit ++ [u2] }, true)
    | some (LinkCode.str _) =>
        if is_valid_url s u2 then ({ s with to_visit := s.to_visit ++ [u2] }, true)
        else (s, false)
    | none =>
        if is_valid_url s u2 then ({ s with to_visit := s.to_visit ++ [u2] }, true)
        else (s, false)

/-- Outcome of one `_request_with_retry` call (after its internal retries):
either a response with a status code, or the transport exception the
retries ended in. -/
inductive NetResult where
  | resp (code : Int)
  | sslError
  | connError
  | timeoutExc
  | otherExc
deriving DecidableEq, Repr

/-- The network behaviour visible to one `_check_link_status` call: the
HEAD outcome, and the GET outcome used only after a 405 HEAD
(seo_analyzer.py:385-389). -/
structure NetOracle where
  head : NetResult
  get : NetResult
deriving DecidableEq, Repr

/-- The response `_check_link_status` classifies: HEAD, replaced by GET
when HEAD yields 405. -/
def effectiveResponse (net : NetOracle) : NetResult :=
  match net.head with
  | NetResult.resp 405 => net.get
  | r => r

/-- The `{'status': ..., 'code': ...}` dict `_check_link_status` returns. -/
structure LinkStatus where
  status : String
  code : LinkCode
deriving DecidableEq, Repr

/-- `SEOAnalyzer._check_link_status` (seo_analyzer.py:342-442).  The third
component records whether a network request was issued.  Note that the
method reads `url_status_cache` but never writes it. -/
def check_link_status (s : AnalyzerState) (u : Url) (now : Nat)
    (net : NetOracle) : AnalyzerState × LinkStatus × Bool :=
  match alookup u s.url_status_cache with
  | some (LinkCode.num c) =>
      if c = 200 then (s, ⟨"OK", LinkCode.num 200⟩, false)
      else if 300 ≤ c ∧ c < 400 then
        ({ s with redirected_urls := s.redirected_urls ++ [(u, LinkCode.num c)] },
         ⟨"Redirigido", LinkCode.num c⟩, false)
      else if c = 404 then
        ({ s with broken_links := s.broken_links ++ [(u, LinkCode.num 404)] },
         ⟨"No encontrado", LinkCode.num 404⟩, false)
      else
        ({ s with broken_links := s.broken_links ++ [(u, LinkCode.num c)] },
         ⟨"Error (" ++ toString c ++ ")", LinkCode.num c⟩, false)
  | some (LinkCode.str t) =>
      ({ s with broken_links := s.broken_links ++ [(u, LinkCode.str t)] },
       ⟨"Error (" ++ t ++ ")", LinkCode.str t⟩, false)
  | none =>
      let domain := domainOf u
      if is_circuit_open s domain now then
        (s, ⟨"Circuit Open", LinkCode.str "CIRCUIT_OPEN"⟩, false)
      else
        match effectiveResponse net with
        | NetResult.resp c =>
            if c = 200 then (record_success s domain, ⟨"OK", LinkCode.num 200⟩, true)
            else if 300 ≤ c ∧ c < 400 then
              (record_success
                 { s with redirected_urls := s.redirected_urls ++ [(u, LinkCode.num c)] }
                 domain,
               ⟨"Redirigido", LinkCode.num c⟩, true)
            else if c = 404 then
              (record_failure
                 { s with broken_links := s.broken_links ++ [(u, LinkCode.num 404)] }
                 domain now,
               ⟨"No encontrado", LinkCode.num 404⟩, true)
            else
              (record_failure
                 { s with broken_links := s.broken_links ++ [(u, LinkCode.num c)] }
                 domain now,
               ⟨"Error (" ++ toString c ++ ")", LinkCode.num c⟩, true)
        | NetResult.sslError =>
            ({ s with broken_links := s.broken_links ++ [(u, LinkCode.str "SSL_ERROR")] },
             ⟨"Error SSL", LinkCode.str "SSL_ERROR"⟩, true)
        | NetResult.connError =>
            ({ s with broken_links := s.broken_links ++ [(u, LinkCode.str "CONN_ERROR")] },
             ⟨"Error de conexión", LinkCode.str "CONN_ERROR"⟩, true)
        | NetResult.timeoutExc =>
            ({ s with broken_links := s.broken_links ++ [(u, LinkCode.str "TIMEOUT")] },
             ⟨"Timeout", LinkCode.str "TIMEOUT"⟩, true)
        | NetResult.otherExc =>
            ({ s with broken_links := s.broken_links ++ [(u, LinkCode.str "ERROR")] },
             ⟨"Error: exception", LinkCode.str "ERROR"⟩, true)

/-- An HTML body as seen by the fetch-strategy heuristics: the raw and
whitespace-stripped lengths of the string, the length of the text
BeautifulSoup extracts, the heading/paragraph counts, whether a `<title>`
and `<h1>`s exist, and whether the body contains each of the known
Cloudflare challenge phrases. -/
structure Html where
  rawLen : Nat
  strippedLen : Nat
  textLen : Nat
  headings : Nat
  paragraphs : Nat
  hasTitle : Bool
  h1Count : Nat
  phraseEnableJs : Bool
  phraseJustMoment : Bool
  phraseChecking : Bool
deriving DecidableEq, Repr

/-- `is_cloudflare_challenge` (seo_analyzer.py:30-48): a 403 status, or a
nonempty body containing one of the three challenge phrases. -/
def is_cloudflare_challenge (h : Html) (status : Int) : Bool :=
  if status = 403 then true
  else if h.rawLen ≠ 0 && h.phraseEnableJs then true
  else if h.rawLen ≠ 0 && h.phraseJustMoment then true
  else if h.rawLen ≠ 0 && h.phraseChecking then true
  else false

/-- `is_skeleton_html` (seo_analyzer.py:51-81): bodies under 100 stripped
characters are not skeletons; otherwise a body over 1000 bytes with fewer
than 50 text characters, or one with no headings and fewer than 100 text
characters, is. -/
def is_skeleton_html (h : Html) : Bool :=
  if h.rawLen = 0 || h.strippedLen < 100 then false
  else if h.textLen < 50 && 1000 < h.rawLen then true
  else if h.textLen < 100 && h.headings = 0 then true
  else false

/-- `validate_extraction` (seo_analyzer.py:84-105): the parse must have a
title, at least one `<h1>`, and at least 50 characters of text. -/
def validate_extraction (h : Html) : Bool :=
  h.hasTitle && h.h1Count ≠ 0 && decide (50 ≤ h.textLen)

/-- The render / no-render decision chain of `crawl_page`
(seo_analyzer.py:642-669): Cloudflare challenge, then skeleton HTML, then
failed BeautifulSoup validation. -/
def fetchDecision (h : Html) (status : Int) : Bool :=
  if is_cloudflare_challenge h status then true
  else if is_skeleton_html h then true
  else !(validate_extraction h)

/-- The value of `use_playwright` actually acted on by `crawl_page`
(seo_analyzer.py:642-685): the decision chain, overridden to `false` when
the URL's domain circuit is open (seo_analyzer.py:682-685). -/
def crawlPageUsePlaywright (s : AnalyzerState) (u : Url) (now : Nat)
    (h : Html) (status : Int) : Bool :=
  let d := fetchDecision h status
  if is_circuit_open s (domainOf u) now then false else d

/-- What one `crawl_page` call does, as visible to the crawl loop: either
the fetch raised and only an error stub is recorded
(seo_analyzer.py:1048-1100), or no usable content was obtained and a
minimal record is appended (seo_analyzer.py:745-750), or content was
extracted and the internal links / hreflang targets listed in `discovered`
were fed to `add_url_to_queue` before the full record is appended
(seo_analyzer.py:826-1033).  `raised` also carries the URLs enqueued
before the exception. -/
inductive FetchOutcome where
  | raised (discovered : List Url) (status : Option Int)
  | emptyContent (status : Option Int)
  | content (h : Html) (status : Option Int) (discovered : List Url)

/-- The truthiness test `if self.specific_urls and url not in
self.specific_urls` at seo_analyzer.py:570. -/
def specSkip (s : AnalyzerState) (u : Url) : Bool :=
  match s.specific_urls with
  | some l => !(l = []) && !(decide (u ∈ l))
  | none => false

/-- `'Status Code'` of the page record: the fetched status, or `None`. -/
def statusOf (st : Option Int) : StatusVal :=
  match st with
  | some n => StatusVal.num n
  | none => StatusVal.noneVal

/-- `'Status Code'` of the error-path record (seo_analyzer.py:1056):
`status_code if status_code else 'Error'` (0 is falsy). -/
def errStatusOf (st : Option Int) : StatusVal :=
  match st with
  | some n => if n = 0 then StatusVal.errorVal else StatusVal.num n
  | none => StatusVal.errorVal

/-- `SEOAnalyzer.crawl_page` (seo_analyzer.py:563-1100), restricted to its
effect on the frontier and the result store: a URL outside a nonempty
specific-URL list returns without appending anything; otherwise exactly
one record for `u` is appended — the full record after enqueueing the
discovered links, the minimal record on empty content, or the error stub
when an exception was caught. -/
def crawl_page (s : AnalyzerState) (u : Url) (o : FetchOutcome) (now : Nat) :
    AnalyzerState :=
  if specSkip s u then s
  else
    match o with
    | FetchOutcome.raised discovered st =>
        let s1 := discovered.foldl (fun st v => (add_url_to_queue st v now).1) s
        { s1 with results := s1.results ++ [⟨u, errStatusOf st⟩] }
    | FetchOutcome.emptyContent st =>
        { s with results := s.results ++ [⟨u, statusOf st⟩] }
    | FetchOutcome.content _ st discovered =>
        let s1 := discovered.foldl (fun st v => (add_url_to_queue st v now).1) s
        { s1 with results := s1.results ++ [⟨u, statusOf st⟩] }

/-- One iteration body of the `crawl_site` loop (seo_analyzer.py:1164-1185):
pop the frontier head, normalize it, skip it if already visited, else mark
it visited, run `crawl_page`, and append a `'No Content'` stub when no
record with this URL exists afterwards. -/
def crawlSiteStep (s : AnalyzerState) (o : FetchOutcome) (now : Nat) :
    AnalyzerState :=
  match s.to_visit with
  | [] => s
  | u :: rest =>
      let s1 := { s with to_visit := rest }
      let u2 := normalizeUrl u
      if u2 ∈ s1.visited then s1
      else
        let s2 := { s1 with visited := u2 :: s1.visited }
        let s3 := crawl_page s2 u2 o now
        if s3.results.any (fun r => r.url = u2) then s3
        else { s3 with results := s3.results ++ [⟨u2, StatusVal.noContent⟩] }

/-- The page-ceiling break test of `crawl_site` (seo_analyzer.py:1159):
`self.max_pages != 1 and len(self.visited) >= self.max_pages`. -/
def ceilingBreak (s : AnalyzerState) : Bool :=
  s.max_pages ≠ 1 && s.max_pages ≤ (s.visited.length : Int)

/-- The `crawl_site` driving loop (seo_analyzer.py:1153-1231): run while the
frontier is nonempty and no stop was requested, breaking on the page
ceiling; one fetch outcome is consumed per processed URL, and the loop is
cut off when the outcome list runs out. -/
def runLoop (s : AnalyzerState) (os : List FetchOutcome) (now : Nat) :
    AnalyzerState :=
  match os with
  | [] => s
  | o :: rest =>
      if s.to_visit = [] ∨ s.is_running = false then s
      else if ceilingBreak s then s
      else runLoop (crawlSiteStep s o now) rest now

/-- `SEOAnalyzer.stop_crawling` (seo_analyzer.py:1102-1117): clear the
running flag, set the paused flag, snapshot the crawl state. -/
def stop_crawling (s : AnalyzerState) : AnalyzerState :=
  { s with is_running := false
           is_paused := true
           current_state := some ⟨s.visited, s.to_visit, s.results, s.specific_urls⟩ }

/-- `SEOAnalyzer.resume_crawling` (seo_analyzer.py:1119-1141): refuse when
not paused; otherwise restore the snapshot (a missing snapshot raises and
is reported as failure) and set the flags back to running.  There is no
check on the restored frontier. -/
def resume_crawling (s : AnalyzerState) : AnalyzerState × Bool :=
  if !s.is_paused then (s, false)
  else
    match s.current_state with
    | none => (s, false)
    | some st =>
        ({ s with visited := st.visited
                  to_visit := st.to_visit
                  results := st.results
                  specific_urls := st.specific_urls
                  is_running := true
                  is_paused := false }, true)

/-- `PlaywrightHandler.max_concurrent_pages = 8`
(playwright_handler.py:33). -/
def max_concurrent_pages : Nat := 8

/-- Outcome of one `page.goto` attempt. -/
inductive NavResult where
  | ok (status : Int)
  | fail
deriving DecidableEq, Repr

/-- The environment one `PlaywrightHandler.get_page_content` call runs in:
whether the page semaphore was acquired within its 30s timeout, whether a
pooled page was obtained within 20s, whether creating a fresh page
succeeds, the outcomes of the three navigation attempts (`load`, the
`domcontentloaded` retry, the second `load`), and the rendered HTML
`page.content()` yields. -/
structure RenderEnv where
  acquireOk : Bool
  poolPageOk : Bool
  newPageOk : Bool
  navLoad1 : NavResult
  navDom : NavResult
  navLoad2 : NavResult
  pageHtml : Option Html
deriving DecidableEq, Repr

/-- The result of `get_page_content`: the `(content, status_code)` pair it
returns, whether a navigation was attempted, and whether the semaphore
slot is released at the end (the `finally` block releases only when the
acquire succeeded). -/
structure RenderResult where
  content : Option Html
  status : Int
  navigated : Bool
  releasedSlot : Bool
deriving DecidableEq, Repr

/-- The navigation retry ladder of `get_page_content`
(playwright_handler.py:190-218): attempt `load`, on failure retry once
with `domcontentloaded`, then one final `load` attempt. -/
def navResponse (e : RenderEnv) : NavResult :=
  match e.navLoad1 with
  | NavResult.ok c => NavResult.ok c
  | NavResult.fail =>
      match e.navDom with
      | NavResult.ok c => NavResult.ok c
      | NavResult.fail => e.navLoad2

/-- `PlaywrightHandler.get_page_content` (playwright_handler.py:149-294).
When the semaphore acquire times out, the code only logs a warning and
proceeds (line 168-169); the render is NOT failed.  A page comes from the
pool or, failing that, from `context.new_page()`; without a page the call
returns `(None, 500)` before navigating; a fully failed navigation ladder
also yields `(None, 500)`. -/
def get_page_content (e : RenderEnv) : RenderResult :=
  let released := e.acquireOk
  if !e.poolPageOk && !e.newPageOk then
    ⟨none, 500, false, released⟩
  else
    match navResponse e with
    | NavResult.fail => ⟨none, 500, true, released⟩
    | NavResult.ok c => ⟨e.pageHtml, c, true, released⟩

/-! ## Trace semantics of the frontier -/

/-- One externally observable mutation of the frontier: an
`add_url_to_queue` call, or one crawl-loop iteration popping and
processing the frontier head. -/
inductive Step (s : AnalyzerState) : AnalyzerState → Prop where
  | enqueue (u : Url) (now : Nat) : Step s ((add_url_to_queue s u now).1)
  | pop (o : FetchOutcome) (now : Nat) : Step s (crawlSiteStep s o now)

/-- States reachable from `s0` by any sequence of enqueue and
pop-and-process steps. -/
inductive ReachableFrom (s0 : AnalyzerState) : AnalyzerState → Prop where
  | refl : ReachableFrom s0 s0
  | step {s t : AnalyzerState} : ReachableFrom s0 s → Step s t →
      ReachableFrom s0 t

/-- The frontier invariant of the development: the pending deque holds no
duplicates, is disjoint from the visited set, and contains only
normalized URLs (the last conjunct is the strengthening that makes the
first two inductive). -/
def FrontierInv (s : AnalyzerState) : Prop :=
  s.to_visit.Nodup ∧ (∀ v ∈ s.to_visit, v ∉ s.visited) ∧
    (∀ v ∈ s.to_visit, normalizeUrl v = v)

/-! ## Helper lemmas -/

theorem normalizeUrl_idem (u : Url) :
    normalizeUrl (normalizeUrl u) = normalizeUrl u := rfl

/-- `add_url_to_queue` either leaves the state untouched or appends the
normalized resolved URL, and it appends only when that URL is in neither
the visited set nor the pending deque. -/
theorem add_url_cases (s : AnalyzerState) (u : Url) (now : Nat) :
    (add_url_to_queue s u now).1 = s ∨
    (normalizeUrl (resolveRel s u) ∉ s.visited ∧
     normalizeUrl (resolveRel s u) ∉ s.to_visit ∧
     (add_url_to_queue s u now).1 =
       { s with to_visit := s.to_visit ++ [normalizeUrl (resolveRel s u)] }) := by
  unfold add_url_to_queue
  dsimp only
  split
  · exact Or.inl rfl
  · rename_i hmem
    rw [not_or] at hmem
    split
    · exact Or.inl rfl
    · split
      · split
        · exact Or.inl rfl
        · exact Or.inr ⟨hmem.1, hmem.2, rfl⟩
      · split
        · exact Or.inr ⟨hmem.1, hmem.2, rfl⟩
        · exact Or.inl rfl
      · split
        · exact Or.inr ⟨hmem.1, hmem.2, rfl⟩
        · exact Or.inl rfl

theorem add_url_results (s : AnalyzerState) (u : Url) (now : Nat) :
    ((add_url_to_queue s u now).1).results = s.results := by
  rcases add_url_cases s u now with h | ⟨_, _, h⟩ <;> rw [h]

theorem add_url_visited (s : AnalyzerState) (u : Url) (now : Nat) :
    ((add_url_to_queue s u now).1).visited = s.visited := by
  rcases add_url_cases s u now with h | ⟨_, _, h⟩ <;> rw [h]

theorem add_url_inv (s : AnalyzerState) (u : Url) (now : Nat)
    (h : FrontierInv s) : FrontierInv ((add_url_to_queue s u now).1) := by
  rcases add_url_cases s u now with heq | ⟨hv, ht, heq⟩
  · rw [heq]; exact h
  · rw [heq]
    obtain ⟨hnd, hdisj, hnorm⟩ := h
    refine ⟨?_, ?_, ?_⟩
    · simpa [List.nodup_append] using ⟨hnd, ht⟩
    · intro v hvmem
      rcases List.mem_append.mp hvmem with hmem | hmem
      · exact hdisj v hmem
      · rcases List.mem_singleton.mp hmem with rfl
        exact hv
    · intro v hvmem
      rcases List.mem_append.mp hvmem with hmem | hmem
      · exact hnorm v hmem
      · rcases List.mem_singleton.mp hmem with rfl
        exact normalizeUrl_idem _

theorem foldl_add_inv (s : AnalyzerState) (l : List Url) (now : Nat)
    (h : FrontierInv s) :
    FrontierInv (l.foldl (fun st v => (add_url_to_queue st v now).1) s) := by
  induction l generalizing s with
  | nil => exact h
  | cons v rest ih => exact ih _ (add_url_inv _ _ _ h)

theorem foldl_add_results (s : AnalyzerState) (l : List Url) (now : Nat) :
    (l.foldl (fun st v => (add_url_to_queue st v now).1) s).results =
      s.results := by
  induction l generalizing s with
  | nil => rfl
  | cons v rest ih => rw [List.foldl_cons, ih, add_url_results]

theorem foldl_add_visited (s : AnalyzerState) (l : List Url) (now : Nat) :
    (l.foldl (fun st v => (add_url_to_queue st v now).1) s).visited =
      s.visited := by
  induction l generalizing s with
  | nil => rfl
  | cons v rest ih => rw [List.foldl_cons, ih, add_url_visited]

theorem crawl_page_inv (s : AnalyzerState) (u : Url) (o : FetchOutcome)
    (now : Nat) (h : FrontierInv s) : FrontierInv (crawl_page s u o now) := by
  unfold crawl_page
  split
  · exact h
  · cases o with
    | raised discovered st =>
        exact And.imp id (And.imp id id) (foldl_add_inv s discovered now h)
    | emptyContent st => exact h
    | content html st discovered =>
        exact And.imp id (And.imp id id) (foldl_add_inv s discovered now h)

theorem crawlSiteStep_inv (s : AnalyzerState) (o : FetchOutcome) (now : Nat)
    (h : FrontierInv s) : FrontierInv (crawlSiteStep s o now) := by
  obtain ⟨hnd, hdisj, hnorm⟩ := h
  unfold crawlSiteStep
  cases hvisit : s.to_visit with
  | nil => exact ⟨by simp [hvisit], hdisj, hnorm⟩
  | cons u rest =>
      have hu : u ∈ s.to_visit := by rw [hvisit]; exact List.mem_cons_self u rest
      have hunorm : normalizeUrl u = u := hnorm u hu
      have hndrest : rest.Nodup := by
        rw [hvisit] at hnd; exact (List.nodup_cons.mp hnd).2
      have hnotin : u ∉ rest := by
        rw [hvisit] at hnd; exact (List.nodup_cons.mp hnd).1
      have hrestmem : ∀ v ∈ rest, v ∈ s.to_visit := by
        intro v hv; rw [hvisit]; exact List.mem_cons_of_mem u hv
      dsimp only
      split
      · exact ⟨hndrest, fun v hv => hdisj v (hrestmem v hv),
          fun v hv => hnorm v (hrestmem v hv)⟩
      · rename_i hnv
        have hinv2 : FrontierInv
            { s with to_visit := rest, visited := normalizeUrl u :: s.visited } := by
          refine ⟨hndrest, ?_, fun v hv => hnorm v (hrestmem v hv)⟩
          intro v hv
          intro hcon
          rcases List.mem_cons.mp hcon with heqv | hmemv
          · rw [hunorm] at heqv; exact hnotin (heqv ▸ hv)
          · exact hdisj v (hrestmem v hv) hmemv
        have hpage := crawl_page_inv _ (normalizeUrl u) o now hinv2
        split
        · exact hpage
        · exact And.imp id (And.imp id id) hpage

/-! ## Concrete values used to instantiate and refute claims -/

/-- `http://a.com/page#x` — a seed URL carrying a fragment. -/
def exBase : Url := ⟨false, false, "http", "a.com", "/page", "", "x"⟩

/-- `http://a.com/page` — the normalized form of `exBase`. -/
def exPage : Url := ⟨false, false, "http", "a.com", "/page", "", ""⟩

/-! ## C1 -/

/-- The final state of the two-step refuting trace for C1: start the
analyzer on `http://a.com/page#x`, enqueue `http://a.com/page`, then pop
and process the (unnormalized) seed. -/
def c1FinalState : AnalyzerState :=
  crawlSiteStep ((add_url_to_queue (initState exBase none 1) exPage 0).1)
    (FetchOutcome.emptyContent none) 0

/-- C1, counterexample.  Starting from a fresh analyzer seeded with
`http://a.com/page#x`, one `add_url_to_queue` of `http://a.com/page`
followed by one pop-and-process step leaves `http://a.com/page` both in
the visited set and in the pending deque: the constructor seeds the
frontier with the raw URL, the enqueue dedup test compares normalized
strings, and the crawl loop normalizes only at pop time. -/
theorem C1_dup_counterexample :
    ReachableFrom (initState exBase none 1) c1FinalState ∧
    exPage ∈ c1FinalState.to_visit ∧ exPage ∈ c1FinalState.visited := by
  refine ⟨?_, by decide, by decide⟩
  exact ReachableFrom.step
    (ReachableFrom.step ReachableFrom.refl (Step.enqueue exPage 0))
    (Step.pop (FetchOutcome.emptyContent none) 0)

/-- C1, amended.  Provided the initial frontier holds no duplicates, is
disjoint from the visited set, and contains only already-normalized URLs
(no fragment, no leading whitespace), every state reachable by
enqueue (`add_url_to_queue`) and pop-and-process (`crawl_site` iteration)
steps has a duplicate-free pending deque disjoint from the visited
set. -/
theorem C1_frontier_invariant (s0 t : AnalyzerState)
    (hnd : s0.to_visit.Nodup)
    (hdisj : ∀ v ∈ s0.to_visit, v ∉ s0.visited)
    (hnorm : ∀ v ∈ s0.to_visit, normalizeUrl v = v)
    (hr : ReachableFrom s0 t) :
    t.to_visit.Nodup ∧ ∀ v ∈ t.to_visit, v ∉ t.visited := by
  have h : FrontierInv t := by
    induction hr with
    | refl => exact ⟨hnd, hdisj, hnorm⟩
    | step hr hstep ih =>
        cases hstep with
        | enqueue u now => exact add_url_inv _ u now ih
        | pop o now => exact crawlSiteStep_inv _ o now ih
  exact ⟨h.1, h.2.1⟩

/-- C1, witness: the amended invariant instantiated at an analyzer seeded
with the already-normalized `http://a.com/page`. -/
theorem C1_frontier_invariant_witness :
    (initState exPage none 1).to_visit.Nodup ∧
    ∀ v ∈ (initState exPage none 1).to_visit,
      v ∉ (initState exPage none 1).visited :=
  C1_frontier_invariant (initState exPage none 1) (initState exPage none 1)
    (by decide) (by decide) (by decide) ReachableFrom.refl

/-! ## C7 -/

/-- `http://a.com/page ` — the page URL with a trailing space. -/
def exPageTrail : Url := ⟨false, true, "http", "a.com", "/page", "", ""⟩

/-- C7, counterexample.  `_normalize_url` does NOT trim trailing
whitespace: `urlsplit` only lstrips (CPython deliberately preserves
trailing space inside the last component), so normalizing
`http://a.com/page ` keeps its trailing space and differs from the
normalization of the trimmed URL.  Behaviorally, the frontier membership
tests therefore do not identify a URL with its trimmed form: with
`http://a.com/page` already pending, enqueueing `http://a.com/page ` is
not rejected as a duplicate but appended as a distinct URL. -/
theorem C7_trailing_ws_counterexample :
    normalizeUrl exPageTrail ≠ normalizeUrl (trimUrl exPageTrail) ∧
    renderUrl (normalizeUrl exPageTrail) = "http://a.com/page " ∧
    (add_url_to_queue (initState exPage none 1) exPageTrail 0).2 = true ∧
    (add_url_to_queue (initState exPage none 1) exPageTrail 0).1.to_visit =
      [exPage, exPageTrail] := by
  decide

/-- C7, amended.  `_normalize_url` removes the fragment and strips only
LEADING whitespace (via `urlsplit`; trailing whitespace survives inside
the path and is preserved by `geturl`): the result has no fragment and no
leading whitespace, normalizing an lstripped URL gives the same result as
normalizing the raw URL, `add_url_to_queue` behaves identically on a URL
and its lstripped form, and its duplicate-membership test operates on the
normalized form — membership of the normalized URL in visited or pending
forces rejection. -/
theorem C7_normalize (u : Url) :
    (normalizeUrl u).fragment = "" ∧
    (normalizeUrl u).wsl = false ∧
    normalizeUrl (lstripUrl u) = normalizeUrl u ∧
    (∀ (s : AnalyzerState) (now : Nat),
       add_url_to_queue s (lstripUrl u) now = add_url_to_queue s u now) ∧
    (∀ (s : AnalyzerState) (now : Nat),
       (normalizeUrl (resolveRel s u) ∈ s.visited ∨
        normalizeUrl (resolveRel s u) ∈ s.to_visit) →
       add_url_to_queue s u now = (s, false)) := by
  refine ⟨rfl, rfl, rfl, ?_, ?_⟩
  · intro s now
    have key : normalizeUrl (resolveRel s (lstripUrl u)) =
        normalizeUrl (resolveRel s u) := by
      unfold resolveRel lstripUrl urljoinBase normalizeUrl
      by_cases h : u.netloc = "" <;> simp [h]
    unfold add_url_to_queue
    rw [key]
  · intro s now hmem
    unfold add_url_to_queue
    rw [if_pos hmem]

/-- C7, witness: the normalized `http://a.com/page#x` is fragment-free and
lstrip-insensitive, and enqueueing it against a frontier already holding
`http://a.com/page` is rejected. -/
theorem C7_normalize_witness :
    (normalizeUrl exBase).fragment = "" ∧
    normalizeUrl (lstripUrl exBase) = normalizeUrl exBase ∧
    add_url_to_queue (initState exPage none 1) exBase 0 =
      (initState exPage none 1, false) := by
  have h := C7_normalize exBase
  exact ⟨h.1, h.2.2.1, h.2.2.2.2 (initState exPage none 1) 0 (by decide)⟩

/-! ## C10 -/

/-- `http://a.com/doc.pdf` — a URL `is_valid_url` rejects (excluded
extension). -/
def exPdf : Url := ⟨false, false, "http", "a.com", "/doc.pdf", "", ""⟩

/-- An analyzer state whose cache marks `exPdf` successful while the
circuit for its domain is open. -/
def c10OpenState : AnalyzerState :=
  { initState exPage none 1 with
      to_visit := []
      url_status_cache := [(exPdf, LinkCode.num 200)]
      domain_failures := [("a.com", ⟨3, 40, 100⟩)] }

/-- An analyzer state whose cache marks `exPdf` successful, circuit
closed. -/
def c10CachedState : AnalyzerState :=
  { initState exPage none 1 with
      to_visit := []
      url_status_cache := [(exPdf, LinkCode.num 200)] }

/-- C10, counterexample.  A URL that is neither visited nor queued and
whose cached status is the integer 200 < 400 is nevertheless NOT appended
when its domain's circuit is open: the circuit test at
seo_analyzer.py:303-307 runs before the cache lookup at line 310. -/
theorem C10_circuit_blocks_cached :
    exPdf ∉ c10OpenState.visited ∧ exPdf ∉ c10OpenState.to_visit ∧
    alookup exPdf c10OpenState.url_status_cache = some (LinkCode.num 200) ∧
    add_url_to_queue c10OpenState exPdf 50 = (c10OpenState, false) := by
  decide

/-- C10, amended.  For a URL that is neither visited nor queued, whose
domain's circuit is NOT open, and whose cached status is an integer
< 400, `add_url_to_queue` appends it to the frontier and returns `True`
without consulting `is_valid_url`: the protocol / extension /
static-pattern / domain admission rules are bypassed for cached-success
URLs. -/
theorem C10_cached_success_bypasses (s : AnalyzerState) (u : Url) (now : Nat)
    (c : Int)
    (hv : normalizeUrl (resolveRel s u) ∉ s.visited)
    (ht : normalizeUrl (resolveRel s u) ∉ s.to_visit)
    (hcirc : is_circuit_open s (domainOf (normalizeUrl (resolveRel s u))) now
       = false)
    (hcache : alookup (normalizeUrl (resolveRel s u)) s.url_status_cache =
       some (LinkCode.num c))
    (hlt : c < 400) :
    add_url_to_queue s u now =
      ({ s with to_visit := s.to_visit ++ [normalizeUrl (resolveRel s u)] },
       true) := by
  unfold add_url_to_queue
  rw [if_neg (by rw [not_or]; exact ⟨hv, ht⟩)]
  rw [if_neg (by rw [hcirc]; exact Bool.false_ne_true)]
  rw [hcache]
  exact if_neg (not_le.mpr hlt)

/-- C10, witness: with `http://a.com/doc.pdf` cached as 200 and the
circuit closed, the URL is enqueued although `is_valid_url` rejects
it. -/
theorem C10_cached_success_bypasses_witness :
    is_valid_url c10CachedState exPdf = false ∧
    add_url_to_queue c10CachedState exPdf 0 =
      ({ c10CachedState with to_visit := [exPdf] }, true) := by
  constructor
  · decide
  · have h := C10_cached_success_bypasses c10CachedState exPdf 0 200
      (by decide) (by decide) (by decide) (by decide) (by decide)
    exact h

/-! ## C5 -/

/-- A fresh analyzer constructed with page ceiling 0. -/
def c5ZeroState : AnalyzerState := initState exPage none 0

/-- C5, counterexample.  With `max_pages = 0` the crawl loop terminates
immediately BECAUSE of the page-count ceiling: the frontier is nonempty
and no stop was requested, yet `0 != 1 and len(visited) >= 0` holds at
once (seo_analyzer.py:1159), so the loop breaks with zero pages visited —
0 is not an "unlimited" sentinel. -/
theorem C5_zero_ceiling_counterexample :
    c5ZeroState.to_visit ≠ [] ∧ c5ZeroState.is_running = true ∧
    c5ZeroState.visited = [] ∧
    ceilingBreak c5ZeroState = true ∧
    runLoop c5ZeroState [FetchOutcome.emptyContent (some 200)] 0 =
      c5ZeroState := by
  decide

/-- C5, amended.  Only `max_pages = 1` is the "unlimited" sentinel: with
ceiling 1 the break test never fires and the loop always proceeds to
process the next frontier URL (terminating only when the frontier empties
or a stop is requested); with ceiling 0 the loop halts immediately on the
ceiling before processing anything. -/
theorem C5_unlimited_sentinel (s : AnalyzerState) (o : FetchOutcome)
    (os : List FetchOutcome) (now : Nat)
    (h1 : s.max_pages = 1) (h2 : s.to_visit ≠ []) (h3 : s.is_running = true) :
    ceilingBreak s = false ∧
    runLoop s (o :: os) now = runLoop (crawlSiteStep s o now) os now := by
  have hcb : ceilingBreak s = false := by
    unfold ceilingBreak
    rw [h1]
    simp
  refine ⟨hcb, ?_⟩
  unfold runLoop
  rw [if_neg (by simp [h2, h3])]
  rw [if_neg (by rw [hcb]; exact Bool.false_ne_true)]
  cases os <;> rfl

/-- C5, witness: a fresh analyzer with ceiling 1 passes the ceiling test
and processes its seed. -/
theorem C5_unlimited_sentinel_witness :
    ceilingBreak (initState exPage none 1) = false ∧
    runLoop (initState exPage none 1)
        [FetchOutcome.emptyContent (some 200)] 0 =
      runLoop (crawlSiteStep (initState exPage none 1)
          (FetchOutcome.emptyContent (some 200)) 0) [] 0 :=
  C5_unlimited_sentinel (initState exPage none 1)
    (FetchOutcome.emptyContent (some 200)) [] 0 rfl (by decide) rfl

/-! ## C6 -/

/-- A body with ample extracted text (2000 chars), headings and a title:
nothing about its content alone calls for rendering. -/
def exRichHtml : Html := ⟨5000, 5000, 2000, 3, 10, true, 1, false, false, false⟩

/-- A rich body that contains the `Just a moment...` challenge phrase. -/
def exChallengeHtml : Html := ⟨5000, 5000, 2000, 3, 10, true, 1, false, true, false⟩

/-- An analyzer state whose circuit for `a.com` is open until t = 100. -/
def c6OpenState : AnalyzerState :=
  { initState exPage none 1 with domain_failures := [("a.com", ⟨3, 40, 100⟩)] }

/-- C6, counterexample.  A 403 response is classified as a Cloudflare
challenge, yet the value of `use_playwright` that `crawl_page` acts on is
`false` when the URL's domain circuit is open: the override at
seo_analyzer.py:682-685 cancels the render decision, so the decision is
not a function of body/status/content-type alone and a 403 does not
always yield "render". -/
theorem C6_circuit_override_counterexample :
    is_cloudflare_challenge exRichHtml 403 = true ∧
    fetchDecision exRichHtml 403 = true ∧
    is_circuit_open c6OpenState (domainOf exPage) 50 = true ∧
    crawlPageUsePlaywright c6OpenState exPage 50 exRichHtml 403 = false := by
  decide

/-- C6, amended.  When the URL's domain circuit is NOT open, the
render/no-render decision acted on equals the deterministic heuristic
chain (challenge, then skeleton, then extraction validation, in that
order), and that chain decides "render" for every HTTP 403 response and
for every nonempty body containing a known challenge phrase, regardless
of the body's extracted text length. -/
theorem C6_fetch_decision (s : AnalyzerState) (u : Url) (now : Nat)
    (h : Html) (status : Int)
    (hcirc : is_circuit_open s (domainOf u) now = false) :
    crawlPageUsePlaywright s u now h status = fetchDecision h status ∧
    (status = 403 → fetchDecision h status = true) ∧
    (h.rawLen ≠ 0 →
      (h.phraseEnableJs || h.phraseJustMoment || h.phraseChecking) = true →
      fetchDecision h status = true) := by
  refine ⟨?_, ?_, ?_⟩
  · unfold crawlPageUsePlaywright
    rw [hcirc]
    simp
  · intro h403
    unfold fetchDecision is_cloudflare_challenge
    rw [if_pos h403, if_pos rfl]
  · intro hne hph
    have hcf : is_cloudflare_challenge h status = true := by
      unfold is_cloudflare_challenge
      rcases Bool.or_eq_true_iff.mp hph with hp | hp
      · rcases Bool.or_eq_true_iff.mp hp with hp1 | hp1
        · split
          · rfl
          · rw [if_pos (by simp [hne, hp1])]
        · split
          · rfl
          · split
            · rfl
            · rw [if_pos (by simp [hne, hp1])]
      · split
        · rfl
        · split
          · rfl
          · split
            · rfl
            · rw [if_pos (by simp [hne, hp])]
    unfold fetchDecision
    rw [if_pos hcf]

/-- C6, witness: with the circuit closed, a 2000-character body under a
403 status, and the same body carrying the `Just a moment...` phrase
under a 200 status, both decide "render". -/
theorem C6_fetch_decision_witness :
    crawlPageUsePlaywright (initState exPage none 1) exPage 0 exRichHtml 403 =
      fetchDecision exRichHtml 403 ∧
    fetchDecision exRichHtml 403 = true ∧
    fetchDecision exChallengeHtml 200 = true := by
  have h1 := C6_fetch_decision (initState exPage none 1) exPage 0 exRichHtml
    403 (by decide)
  have h2 := C6_fetch_decision (initState exPage none 1) exPage 0
    exChallengeHtml 200 (by decide)
  exact ⟨h1.1, h1.2.1 rfl, h2.2.2 (by decide) (by decide)⟩

/-! ## C8 -/

/-- An analyzer that processed its only seed and was then stopped: the
snapshot holds an empty remaining frontier. -/
def c8PausedEmpty : AnalyzerState :=
  stop_crawling
    { initState exPage none 1 with
        to_visit := []
        visited := [exPage]
        results := [⟨exPage, StatusVal.num 200⟩] }

/-- C8, counterexample.  `resume_crawling` called while paused with an
empty remaining frontier is NOT refused: it returns `True`, restores the
snapshot and flips the analyzer back to running — there is no frontier
check anywhere in seo_analyzer.py:1119-1141. -/
theorem C8_resume_empty_counterexample :
    c8PausedEmpty.is_paused = true ∧
    c8PausedEmpty.current_state =
      some ⟨[exPage], [], [⟨exPage, StatusVal.num 200⟩], none⟩ ∧
    (resume_crawling c8PausedEmpty).2 = true ∧
    (resume_crawling c8PausedEmpty).1.is_running = true ∧
    (resume_crawling c8PausedEmpty).1.is_paused = false ∧
    (resume_crawling c8PausedEmpty).1.to_visit = [] := by
  decide

/-- C8, amended.  The engine's `resume_crawling` refuses (returns `False`,
leaving the state untouched) exactly when the analyzer is not paused or
no snapshot is restorable; while paused with a captured snapshot it
restores the snapshot and reports success REGARDLESS of whether the
remaining frontier is empty — the empty-frontier refusal that reports
completion is implemented one layer up, in the GUI's `resume_analysis`
(gui.py:835-840), not in the engine. -/
theorem C8_resume_restores (s : AnalyzerState) (st : Snapshot)
    (hp : s.is_paused = true) (hc : s.current_state = some st) :
    (resume_crawling s).2 = true ∧
    (resume_crawling s).1.is_running = true ∧
    (resume_crawling s).1.is_paused = false ∧
    (resume_crawling s).1.to_visit = st.to_visit ∧
    (resume_crawling s).1.visited = st.visited ∧
    (∀ s2 : AnalyzerState, s2.is_paused = false →
       resume_crawling s2 = (s2, false)) := by
  refine ⟨?_, ?_, ?_, ?_, ?_, ?_⟩
  · simp [resume_crawling, hp, hc]
  · simp [resume_crawling, hp, hc]
  · simp [resume_crawling, hp, hc]
  · simp [resume_crawling, hp, hc]
  · simp [resume_crawling, hp, hc]
  · intro s2 hs2
    simp [resume_crawling, hs2]

/-- C8, witness: resuming the stopped analyzer above (paused, snapshot
captured) succeeds and restores the snapshot's empty frontier. -/
theorem C8_resume_restores_witness :
    (resume_crawling c8PausedEmpty).2 = true ∧
    (resume_crawling c8PausedEmpty).1.is_running = true ∧
    (resume_crawling c8PausedEmpty).1.to_visit = [] := by
  have h := C8_resume_restores c8PausedEmpty
    ⟨[exPage], [], [⟨exPage, StatusVal.num 200⟩], none⟩ (by decide) (by decide)
  exact ⟨h.1, h.2.1, h.2.2.2.1⟩

/-! ## C9 -/

/-- A render environment in which the semaphore acquire timed out but the
pool yields a page and navigation succeeds at once with status 200. -/
def c9TimeoutEnv : RenderEnv :=
  ⟨false, true, true, NavResult.ok 200, NavResult.fail, NavResult.fail,
   some exRichHtml⟩

/-- C9, counterexample.  When the semaphore acquire times out
(`acquired = False`), `get_page_content` does NOT fail the render: lines
168-169 of playwright_handler.py only log a warning, after which the call
takes a page, navigates, and returns the rendered content with status 200
— so the semaphore bound is not enforced for timed-out callers. -/
theorem C9_acquire_timeout_counterexample :
    c9TimeoutEnv.acquireOk = false ∧
    get_page_content c9TimeoutEnv =
      ⟨some exRichHtml, 200, true, false⟩ := by
  decide

/-- C9, amended.  The outcome of `get_page_content` (content, status, and
whether navigation was attempted) is independent of whether the semaphore
slot was acquired; the acquire flag only controls whether a slot is
released in the `finally` block.  `max_concurrent_pages` is 8, but the
bound is advisory: a timed-out caller proceeds instead of failing. -/
theorem C9_acquire_ignored (e : RenderEnv) (b : Bool) :
    (get_page_content { e with acquireOk := b }).content =
      (get_page_content e).content ∧
    (get_page_content { e with acquireOk := b }).status =
      (get_page_content e).status ∧
    (get_page_content { e with acquireOk := b }).navigated =
      (get_page_content e).navigated ∧
    (get_page_content e).releasedSlot = e.acquireOk ∧
    max_concurrent_pages = 8 := by
  cases e
  unfold get_page_content navResponse
  dsimp only
  split <;> (try split) <;> simp [max_concurrent_pages]

/-! ## C2 -/

/-- `http://ext.com/l` — an external link target. -/
def extUrl : Url := ⟨false, false, "http", "ext.com", "/l", "", ""⟩

/-- A well-behaved server: HEAD answers 200. -/
def netOK : NetOracle := ⟨NetResult.resp 200, NetResult.resp 200⟩

/-- C2, evaluated at the failing input.  `_check_link_status` never writes
`url_status_cache` (the field is assigned only in `__init__` and read at
seo_analyzer.py:310 and 346), so observing a status code does not
populate the cache: on a fresh analyzer, checking `http://ext.com/l`
twice issues a network request BOTH times, and the cache is empty
throughout.  This contradicts the claim (and the code's own comments at
seo_analyzer.py:159-160 and 344) that a previously checked URL is served
from the cache without a new request. -/
theorem C2_cache_never_written :
    (∀ (s : AnalyzerState) (u : Url) (now : Nat) (net : NetOracle),
       ((check_link_status s u now net).1).url_status_cache =
         s.url_status_cache) ∧
    (check_link_status (initState exPage none 1) extUrl 0 netOK).2.2 = true ∧
    (check_link_status
        ((check_link_status (initState exPage none 1) extUrl 0 netOK).1)
        extUrl 0 netOK).2.2 = true ∧
    ((check_link_status
        ((check_link_status (initState exPage none 1) extUrl 0 netOK).1)
        extUrl 0 netOK).1).url_status_cache = [] := by
  refine ⟨?_, by decide, by decide, by decide⟩
  intro s u now net
  unfold check_link_status
  dsimp only
  split <;> (try split) <;> (try split) <;> (try split) <;> (try split) <;>
    (try split) <;> rfl

/-! ## C3 -/

theorem alookup_astore_same {β : Type} (k : String) (v : β)
    (l : List (String × β)) : alookup k (astore k v l) = some v := by
  unfold astore alookup
  rw [if_pos rfl]

/-- `record_failure` touches only `domain_failures`. -/
theorem record_failure_cache (s : AnalyzerState) (d : String) (t : Nat) :
    (record_failure s d t).url_status_cache = s.url_status_cache := rfl

/-- The per-domain record after one failure on a fresh domain. -/
theorem record_failure_fresh (s : AnalyzerState) (d : String) (t : Nat)
    (h : alookup d s.domain_failures = none) :
    alookup d (record_failure s d t).domain_failures =
      some ⟨1, t, 0⟩ := by
  unfold record_failure
  rw [h]
  simpa [circuit_failure_threshold] using
    alookup_astore_same d (⟨1, t, 0⟩ : DomainInfo) s.domain_failures

/-- The per-domain record after a further failure below the threshold. -/
theorem record_failure_step (s : AnalyzerState) (d : String) (t : Nat)
    (n oU : Nat) (tl : Nat)
    (h : alookup d s.domain_failures = some ⟨n, tl, oU⟩)
    (hn : n + 1 < circuit_failure_threshold) :
    alookup d (record_failure s d t).domain_failures =
      some ⟨n + 1, t, oU⟩ := by
  unfold record_failure
  rw [h]
  simpa [Nat.not_le.mpr hn] using
    alookup_astore_same d (⟨n + 1, t, oU⟩ : DomainInfo) s.domain_failures

/-- The per-domain record once the failure count reaches the threshold:
the circuit opens until `t + circuit_cooldown`. -/
theorem record_failure_opens (s : AnalyzerState) (d : String) (t : Nat)
    (n oU : Nat) (tl : Nat)
    (h : alookup d s.domain_failures = some ⟨n, tl, oU⟩)
    (hn : circuit_failure_threshold ≤ n + 1) :
    alookup d (record_failure s d t).domain_failures =
      some ⟨n + 1, t, t + circuit_cooldown⟩ := by
  unfold record_failure
  rw [h]
  simpa [hn] using
    alookup_astore_same d
      (⟨n + 1, t, t + circuit_cooldown⟩ : DomainInfo) s.domain_failures

/-- C3, confirmed (the claim's "within the cooldown window" premise is not
even needed: the code counts consecutive failures regardless of their
spacing).  After three consecutive `_record_failure` calls for a fresh
domain `d`, every `_check_link_status` on a URL of `d` with no cache
entry returns the synthetic `Circuit Open` result, with no state change
and no network request, as long as `now < t3 + 60`; once the cooldown has
expired the check issues a network request again.  The cache-miss
hypothesis is globally valid in this program: `url_status_cache` is
written nowhere, so it is `{}` in every reachable state. -/
theorem C3_circuit_breaker (s : AnalyzerState) (d : String) (u : Url)
    (t1 t2 t3 : Nat) (net : NetOracle)
    (hfresh : alookup d s.domain_failures = none)
    (h12 : t1 ≤ t2) (h23 : t2 ≤ t3) (hwin : t3 ≤ t1 + circuit_cooldown)
    (hdom : domainOf u = d)
    (hcache : s.url_status_cache = []) :
    (∀ now : Nat, now < t3 + circuit_cooldown →
       check_link_status
           (record_failure (record_failure (record_failure s d t1) d t2) d t3)
           u now net =
         (record_failure (record_failure (record_failure s d t1) d t2) d t3,
          ⟨"Circuit Open", LinkCode.str "CIRCUIT_OPEN"⟩, false)) ∧
    (∀ now : Nat, t3 + circuit_cooldown ≤ now →
       (check_link_status
           (record_failure (record_failure (record_failure s d t1) d t2) d t3)
           u now net).2.2 = true) := by
  have h1 := record_failure_fresh s d t1 hfresh
  have h2 := record_failure_step (record_failure s d t1) d t2 1 0 t1 h1
    (by decide)
  have h3 := record_failure_opens
    (record_failure (record_failure s d t1) d t2) d t3 2 0 t2 h2 (by decide)
  have hcache3 :
      (record_failure (record_failure (record_failure s d t1) d t2) d t3
        ).url_status_cache = [] := by
    rw [record_failure_cache, record_failure_cache, record_failure_cache,
      hcache]
  constructor
  · intro now hnow
    have hopen : is_circuit_open
        (record_failure (record_failure (record_failure s d t1) d t2) d t3)
        (domainOf u) now = true := by
      unfold is_circuit_open
      rw [hdom, h3]
      simp only [circuit_cooldown] at hnow ⊢
      simp [hnow]
    simp only [check_link_status, hcache3, alookup]
    rw [hopen]
    simp
  · intro now hnow
    have hclosed : is_circuit_open
        (record_failure (record_failure (record_failure s d t1) d t2) d t3)
        (domainOf u) now = false := by
      unfold is_circuit_open
      rw [hdom, h3]
      simp only [circuit_cooldown] at hnow ⊢
      simp [Nat.not_lt.mpr hnow]
    simp only [check_link_status, hcache3, alookup]
    rw [hclosed]
    simp only [Bool.false_eq_true, if_false]
    cases heff : effectiveResponse net <;> simp only [heff] <;>
      (try split_ifs) <;> rfl

/-- C3, witness: on a fresh analyzer, three failures for `ext.com` at
t = 0, 1, 2 open the circuit; at t = 10 the check of
`http://ext.com/l` is short-circuited with no network call, and at
t = 100 the network is consulted again. -/
theorem C3_circuit_breaker_witness :
    check_link_status
        (record_failure (record_failure
          (record_failure (initState exPage none 1) "ext.com" 0)
          "ext.com" 1) "ext.com" 2)
        extUrl 10 netOK =
      (record_failure (record_failure
          (record_failure (initState exPage none 1) "ext.com" 0)
          "ext.com" 1) "ext.com" 2,
       ⟨"Circuit Open", LinkCode.str "CIRCUIT_OPEN"⟩, false) ∧
    (check_link_status
        (record_failure (record_failure
          (record_failure (initState exPage none 1) "ext.com" 0)
          "ext.com" 1) "ext.com" 2)
        extUrl 100 netOK).2.2 = true := by
  have h := C3_circuit_breaker (initState exPage none 1) "ext.com" extUrl
    0 1 2 netOK (by decide) (by decide) (by decide) (by decide) (by decide)
    (by decide)
  exact ⟨h.1 10 (by decide), h.2 100 (by decide)⟩

/-! ## C4 -/

/-- A `crawl_page` call on a URL outside a nonempty specific-URL list
returns without touching the state (seo_analyzer.py:570-573). -/
theorem crawl_page_skip (s : AnalyzerState) (u : Url) (o : FetchOutcome)
    (now : Nat) (h : specSkip s u = true) : crawl_page s u o now = s := by
  unfold crawl_page
  rw [if_pos h]

/-- A non-skipped `crawl_page` call appends exactly one record carrying
the processed URL, in every outcome (raised / empty content / full
content). -/
theorem crawl_page_appends (s : AnalyzerState) (u : Url) (o : FetchOutcome)
    (now : Nat) (h : specSkip s u = false) :
    ∃ rec : PageRecord, rec.url = u ∧
      (crawl_page s u o now).results = s.results ++ [rec] := by
  unfold crawl_page
  rw [if_neg (by rw [h]; exact Bool.false_ne_true)]
  cases o with
  | raised discovered st =>
      refine ⟨⟨u, errStatusOf st⟩, rfl, ?_⟩
      dsimp only
      rw [foldl_add_results]
  | emptyContent st => exact ⟨⟨u, statusOf st⟩, rfl, rfl⟩
  | content html st discovered =>
      refine ⟨⟨u, statusOf st⟩, rfl, ?_⟩
      dsimp only
      rw [foldl_add_results]

/-- After processing a URL with no pre-existing record, the crawl loop's
stub-or-not alternative (seo_analyzer.py:1176-1185) yields exactly one
appended record carrying that URL. -/
theorem crawl_step_tail (s2 : AnalyzerState) (u2 : Url) (o : FetchOutcome)
    (now : Nat) (hnr : ∀ r ∈ s2.results, r.url ≠ u2) :
    ∃ rec : PageRecord, rec.url = u2 ∧
      (if (crawl_page s2 u2 o now).results.any (fun r => r.url = u2) = true
       then crawl_page s2 u2 o now
       else { crawl_page s2 u2 o now with
              results := (crawl_page s2 u2 o now).results ++
                [⟨u2, StatusVal.noContent⟩] }).results =
        s2.results ++ [rec] := by
  cases hskip : specSkip s2 u2 with
  | true =>
      have hpg := crawl_page_skip s2 u2 o now hskip
      have hany : (crawl_page s2 u2 o now).results.any
          (fun r => r.url = u2) = false := by
        rw [hpg, List.any_eq_false]
        intro r hr
        simpa using hnr r hr
      rw [if_neg (by rw [hany]; exact Bool.false_ne_true)]
      refine ⟨⟨u2, StatusVal.noContent⟩, rfl, ?_⟩
      dsimp only
      rw [hpg]
  | false =>
      obtain ⟨rec, hrecu, hres⟩ := crawl_page_appends s2 u2 o now hskip
      have hany : (crawl_page s2 u2 o now).results.any
          (fun r => r.url = u2) = true := by
        rw [hres, List.any_append]
        simp [hrecu]
      rw [if_pos hany]
      exact ⟨rec, hrecu, hres⟩

/-- C4, confirmed.  One crawl-loop iteration that pops and processes a
not-yet-visited URL appends exactly one page record whose `'URL'` key is
the processed (normalized) URL: one record from `crawl_page` itself on
every internal path, or the `'No Content'` stub the loop adds when
`crawl_page` recorded nothing (seo_analyzer.py:1176-1185) — never zero
records and never more than one.  The no-pre-existing-record hypothesis
holds in every reachable state, because records are only ever appended
for URLs being moved into the visited set. -/
theorem C4_exactly_one_record (s : AnalyzerState) (u : Url) (rest : List Url)
    (o : FetchOutcome) (now : Nat)
    (hpop : s.to_visit = u :: rest)
    (hnv : normalizeUrl u ∉ s.visited)
    (hnr : ∀ r ∈ s.results, r.url ≠ normalizeUrl u) :
    ∃ rec : PageRecord, rec.url = normalizeUrl u ∧
      (crawlSiteStep s o now).results = s.results ++ [rec] := by
  unfold crawlSiteStep
  rw [hpop]
  dsimp only
  rw [if_neg hnv]
  exact crawl_step_tail _ (normalizeUrl u) o now (fun r hr => hnr r hr)

/-- C4, witness: a fresh analyzer processing its seed with empty fetched
content still records exactly one page record for the seed. -/
theorem C4_exactly_one_record_witness :
    ∃ rec : PageRecord, rec.url = normalizeUrl exPage ∧
      (crawlSiteStep (initState exPage none 1)
          (FetchOutcome.emptyContent (some 200)) 0).results =
        (initState exPage none 1).results ++ [rec] :=
  C4_exactly_one_record (initState exPage none 1) exPage []
    (FetchOutcome.emptyContent (some 200)) 0 rfl (by decide)
    (by intro r hr; simp [initState] at hr)

end Scraper
